import Mathlib

/-!
Shallow embedding of the kukareku arbitrage bot (current generation:
`config.py`, `order_manager.py`, `websocket_manager.py`,
`advanced_test_bot.py`, `arbitrage_bot/telegram_monitor.py`).

Python floats are modelled as exact rationals (`ℚ`); Python dicts keyed by
strings are modelled as association lists with dict-assignment semantics
(replace if present, else append).  Asynchronous calls whose results the
code consumes (`await`ed market details, order placements, fetched prices,
ticker events) become explicit parameters, and stateful methods become
functions from state to state.
-/

namespace Kukareku

/-- Configuration constants, from `config.py`. -/
def LEVERAGE : ℚ := 3

def MAX_CONCURRENT_TRADES : Nat := 3

def MIN_SPREAD : ℚ := 3

def MAX_MIN_NOTIONAL_USD : ℚ := 4

def TRADE_AMOUNT : ℚ := 1

def CLOSE_SPREAD : ℚ := 1/2

def MAX_ALLOWED_SPREAD : ℚ := 50

def SPREAD_SANITY_CHECK : Bool := true

def TRAILING_STOP_ENABLED : Bool := true

def MAX_HOLD_TIME : ℚ := 6000

def MAX_DAILY_LOSS : ℚ := 8

def RISKY_SYMBOLS : List (String × ℚ) := [("0G", 1/2), ("XNL", 3/10), ("MET", 7/10), ("PIGGY", 3/5)]

def SYMBOL_BLACKLIST : List String := ["AIA"]

/-- Association-list lookup, modelling Python `dict.get`. -/
def lookupA {α : Type} : List (String × α) → String → Option α
  | [], _ => none
  | (k1, v) :: t, k => if k1 = k then some v else lookupA t k

/-- Association-list assignment, modelling Python `d[k] = v`:
replace the entry when the key is present, otherwise append. -/
def updateA {α : Type} : List (String × α) → String → α → List (String × α)
  | [], k, v => [(k, v)]
  | (k1, v1) :: t, k, v => if k1 = k then (k, v) :: t else (k1, v1) :: updateA t k v

/-- Market metadata as read by `open_arbitrage` from
`market['limits']['cost']['min']` and `market['limits']['amount']['min']`
(`none` models a missing/`None` entry). -/
structure Market where
  minCost : Option ℚ
  minAmount : Option ℚ

/-- Python `x or 0.0` applied to a possibly missing limit value. -/
def orZero : Option ℚ → ℚ
  | none => 0
  | some q => q

/-- The slice of a ccxt order dict that `order_manager.py` reads:
`order['id']` and `order['price']`. -/
structure Order where
  id : String
  price : ℚ

/-- One entry of `OrderManager.active_trades`, as built in
`open_arbitrage` and mutated by `close_arbitrage` /
`_calculate_and_record_pnl`. -/
structure Trade where
  symbol : String
  entry_spread : ℚ
  low_exchange : String
  high_exchange : String
  entry_buy_price : ℚ
  entry_sell_price : ℚ
  quantity : ℚ
  status : String
  entry_time : ℚ
  max_spread_seen : ℚ
  net_pnl : Option ℚ

/-- The mutable fields of `OrderManager` that the trading path touches. -/
structure OMState where
  active_trades : List (String × Trade)
  daily_pnl : ℚ

/-- Externally visible effects of the trading methods (order placement,
order cancellation, spawning of a monitor task). -/
inductive Action
  | placeOrder (exch sym side : String) (qty px : ℚ)
  | cancelOrder (exch orderId sym : String)
  | spawnMonitor (tradeId : String)
deriving DecidableEq

/-- `OrderManager.open_arbitrage` (order_manager.py lines 150-195).
`lowMkt`/`highMkt` are the awaited `get_market_details` results and
`buyRes`/`sellRes` the awaited `create_order` results (used only when the
code reaches the corresponding call); `now` is `int(time.time())` and
`utcNow` the entry timestamp.  Returns the new state and the actions
performed. -/
def open_arbitrage (st : OMState) (symbol : String) (spread : ℚ)
    (low_exch high_exch : String) (low_price high_price : ℚ)
    (lowMkt highMkt : Option Market) (buyRes sellRes : Option Order)
    (now : Int) (utcNow : ℚ) : OMState × List Action :=
  if symbol ∈ SYMBOL_BLACKLIST ∨ st.active_trades.length ≥ MAX_CONCURRENT_TRADES
      ∨ st.daily_pnl ≤ -MAX_DAILY_LOSS then (st, [])
  else
    match lowMkt, highMkt with
    | some low_mkt, some high_mkt =>
      let min_notional := max (orZero low_mkt.minCost) (orZero high_mkt.minCost)
      if min_notional > MAX_MIN_NOTIONAL_USD then (st, [])
      else
        let min_qty := max (orZero low_mkt.minAmount) (orZero high_mkt.minAmount)
        let quantity0 := if min_qty > 0 then min_qty else TRADE_AMOUNT * LEVERAGE / low_price
        let quantity :=
          match lookupA RISKY_SYMBOLS symbol with
          | some factor => quantity0 * factor
          | none => quantity0
        let placed : List Action :=
          [Action.placeOrder low_exch symbol "buy" quantity low_price,
           Action.placeOrder high_exch symbol "sell" quantity high_price]
        match buyRes, sellRes with
        | some buy_order, some sell_order =>
          let trade_id := String.mk (symbol.data.takeWhile (fun c => c ≠ '-')) ++ "-" ++ toString now
          let trade : Trade :=
            { symbol := symbol, entry_spread := spread, low_exchange := low_exch,
              high_exchange := high_exch, entry_buy_price := buy_order.price,
              entry_sell_price := sell_order.price, quantity := quantity,
              status := "open", entry_time := utcNow, max_spread_seen := spread,
              net_pnl := none }
          ({ st with active_trades := updateA st.active_trades trade_id trade },
           placed ++ [Action.spawnMonitor trade_id])
        | some buy_order, none =>
          (st, placed ++ [Action.cancelOrder low_exch buy_order.id symbol])
        | none, some sell_order =>
          (st, placed ++ [Action.cancelOrder high_exch sell_order.id symbol])
        | none, none => (st, placed)
    | _, _ => (st, [])

/-- The inputs one `handle_signal → open_arbitrage` invocation consumes. -/
structure SigInput where
  symbol : String
  spread : ℚ
  low_exch : String
  high_exch : String
  low_price : ℚ
  high_price : ℚ
  lowMkt : Option Market
  highMkt : Option Market
  buyRes : Option Order
  sellRes : Option Order
  now : Int
  utcNow : ℚ

/-- The phases of one `open_arbitrage` invocation, split at its `await`
suspension points: the admission guard (order_manager.py line 151) runs
synchronously when the task starts; the task then suspends at the
`asyncio.gather` awaiting `get_market_details` (lines 155-158); after the
market checks it suspends again at the `asyncio.gather` awaiting the two
`create_order` calls (lines 178-181); on resumption it registers the
trade or cancels the survivor (lines 183-195).  The quantity computed
between the two suspensions is carried across the second one. -/
inductive TaskPhase
  | atStart
  | awaitingMarkets
  | awaitingOrders (quantity : ℚ)
  | finished

/-- One resumption of an `open_arbitrage` task: the code executed between
two consecutive suspension points, against the shared manager state as it
is at resumption time. -/
def open_arbitrage_task_step (st : OMState) (s : SigInput) : TaskPhase → OMState × TaskPhase
  | TaskPhase.atStart =>
      if s.symbol ∈ SYMBOL_BLACKLIST ∨ st.active_trades.length ≥ MAX_CONCURRENT_TRADES
          ∨ st.daily_pnl ≤ -MAX_DAILY_LOSS then (st, TaskPhase.finished)
      else (st, TaskPhase.awaitingMarkets)
  | TaskPhase.awaitingMarkets =>
      match s.lowMkt, s.highMkt with
      | some low_mkt, some high_mkt =>
        let min_notional := max (orZero low_mkt.minCost) (orZero high_mkt.minCost)
        if min_notional > MAX_MIN_NOTIONAL_USD then (st, TaskPhase.finished)
        else
          let min_qty := max (orZero low_mkt.minAmount) (orZero high_mkt.minAmount)
          let quantity0 := if min_qty > 0 then min_qty else TRADE_AMOUNT * LEVERAGE / s.low_price
          let quantity :=
            match lookupA RISKY_SYMBOLS s.symbol with
            | some factor => quantity0 * factor
            | none => quantity0
          (st, TaskPhase.awaitingOrders quantity)
      | _, _ => (st, TaskPhase.finished)
  | TaskPhase.awaitingOrders quantity =>
      match s.buyRes, s.sellRes with
      | some buy_order, some sell_order =>
        let trade_id := String.mk (s.symbol.data.takeWhile (fun c => c ≠ '-')) ++ "-" ++ toString s.now
        let trade : Trade :=
          { symbol := s.symbol, entry_spread := s.spread, low_exchange := s.low_exch,
            high_exchange := s.high_exch, entry_buy_price := buy_order.price,
            entry_sell_price := sell_order.price, quantity := quantity,
            status := "open", entry_time := s.utcNow, max_spread_seen := s.spread,
            net_pnl := none }
        ({ st with active_trades := updateA st.active_trades trade_id trade },
         TaskPhase.finished)
      | _, _ => (st, TaskPhase.finished)
  | TaskPhase.finished => (st, TaskPhase.finished)

/-- A spawned `handle_signal → open_arbitrage` task
(telegram_monitor.py line 91 spawns one such task per inbound signal)
together with its progress. -/
structure SigTask where
  sig : SigInput
  phase : TaskPhase

/-- Interleaved execution of several signal tasks over the shared
`OrderManager` state: the schedule names, step by step, which task the
event loop resumes next; a finished or out-of-range index is a no-op. -/
def run_tasks (st : OMState) (tasks : List SigTask) : List Nat → OMState × List SigTask
  | [] => (st, tasks)
  | i :: rest =>
    match tasks[i]? with
    | none => run_tasks st tasks rest
    | some t =>
      let p := open_arbitrage_task_step st t.sig t.phase
      run_tasks p.1 (tasks.set i { sig := t.sig, phase := p.2 }) rest

/-- Python truthiness of an optional float, as in
`if not sell_price or not buy_price` (`None` and `0.0` are falsy). -/
def truthyQ : Option ℚ → Bool
  | none => false
  | some q => q ≠ 0

/-- One iteration of the `while` loop in `OrderManager.monitor_trade`
(order_manager.py lines 200-216): given the awaited prices from the two
venues and the current time, returns the close reason passed to
`close_arbitrage`, or `none` when the trade stays open this tick. -/
def monitor_trade_tick (trade : Trade) (low_px high_px : Option ℚ) (utcNow : ℚ) :
    Option String :=
  if truthyQ low_px = false ∨ truthyQ high_px = false then none
  else
    match low_px, high_px with
    | some lp, some hp =>
      let current_spread := (lp - hp) / hp * 100
      let duration := utcNow - trade.entry_time
      if duration > MAX_HOLD_TIME then some "timeout"
      else if current_spread < CLOSE_SPREAD then some "spread_collapse"
      else if TRAILING_STOP_ENABLED = true ∧ current_spread < trade.max_spread_seen * (1/2) then
        some "trailing_stop"
      else none
    | _, _ => none

/-- A Python runtime exception escaping a method. -/
inductive PyErr
  | nameError (name : String)
deriving DecidableEq

/-- The local names bound in the body of
`OrderManager._calculate_and_record_pnl` (its parameters and assigned
locals); `trade_id` is not among them. -/
def pnl_method_locals : List String :=
  ["self", "trade", "exit_sell_price", "exit_buy_price",
   "pnl_long", "pnl_short", "gross_pnl", "commission", "net_pnl"]

/-- Evaluation of a bare name in a Python function body: an unbound local
name raises `NameError` (order_manager.py has no module-level or global
binding for `trade_id`). -/
def readLocal (locals : List String) (n : String) : Except PyErr Unit :=
  if n ∈ locals then Except.ok () else Except.error (PyErr.nameError n)

/-- The net-P&L arithmetic of `_calculate_and_record_pnl`
(order_manager.py lines 244-248): long leg plus short leg gross P&L minus
a commission of the four traded prices times quantity times the
hard-coded rate `0.0007`. -/
def trade_net_pnl (trade : Trade) (exit_sell_price exit_buy_price : ℚ) : ℚ :=
  let pnl_long := (exit_sell_price - trade.entry_buy_price) * trade.quantity
  let pnl_short := (trade.entry_sell_price - exit_buy_price) * trade.quantity
  let gross_pnl := pnl_long + pnl_short
  let commission := (trade.entry_buy_price + trade.entry_sell_price
      + exit_sell_price + exit_buy_price) * trade.quantity * (7/10000)
  gross_pnl - commission

/-- `OrderManager._calculate_and_record_pnl` (order_manager.py lines
243-252).  `tid` is the key under which `trade` is stored in
`active_trades` (the dict mutation through the `trade` reference updates
that entry).  Its final statement `self.active_trades.pop(trade_id, None)`
evaluates the name `trade_id`, which is not bound in that scope, so the
already mutated state is paired with the escaping exception. -/
def calculate_and_record_pnl (st : OMState) (tid : String) (trade : Trade)
    (exit_sell_price exit_buy_price : ℚ) : OMState × Except PyErr Unit :=
  let net := trade_net_pnl trade exit_sell_price exit_buy_price
  let trade1 := { trade with status := "closed", net_pnl := some net }
  let st1 : OMState :=
    { st with daily_pnl := st.daily_pnl + net, active_trades := updateA st.active_trades tid trade1 }
  match readLocal pnl_method_locals "trade_id" with
  | Except.error e => (st1, Except.error e)
  | Except.ok _ =>
      ({ st1 with active_trades := st1.active_trades.filter (fun kv => kv.1 ≠ tid) },
       Except.ok ())

/-- `OrderManager.close_arbitrage` (order_manager.py lines 219-241).
`sell_price`/`buy_price` are the awaited `price_fetcher.get_price`
results, `sellRes`/`buyRes` the awaited closing `create_order` results
(consumed only when the code reaches the call). -/
def close_arbitrage (st : OMState) (tid : String)
    (sell_price buy_price : Option ℚ) (sellRes buyRes : Option Order) :
    OMState × Except PyErr Unit :=
  match lookupA st.active_trades tid with
  | none => (st, Except.ok ())
  | some trade =>
    if trade.status ≠ "open" then (st, Except.ok ())
    else
      let trade1 := { trade with status := "closing" }
      let st1 : OMState := { st with active_trades := updateA st.active_trades tid trade1 }
      let stErr : OMState :=
        { st1 with active_trades := updateA st1.active_trades tid ({ trade1 with status := "error_closing" }) }
      if truthyQ sell_price = false ∨ truthyQ buy_price = false then
        (stErr, Except.ok ())
      else
        match sellRes, buyRes with
        | some sell_order, some buy_order =>
            calculate_and_record_pnl st1 tid trade1 sell_order.price buy_order.price
        | _, _ => (stErr, Except.ok ())

/-! ## WebSocketManager (websocket_manager.py) -/

/-- The price cache of `WebSocketManager`: `self.prices` is
`{symbol: {exchange_id: price}}`.  The source keeps no update times; the
`lastUpdate` component is a history (ghost) field the embedding maintains
alongside each cache write, recording the instant of the write, so that
age-of-quote properties can be stated.  It is never read by any embedded
code path. -/
structure WSState where
  prices : List (String × List (String × ℚ))
  lastUpdate : List (String × List (String × ℚ))

/-- The empty cache (`self.prices = {}` at construction). -/
def WSState.initial : WSState := { prices := [], lastUpdate := [] }

/-- Nested dict lookup `self.prices.get(symbol, {}).get(exchange)`. -/
def lookup2 (m : List (String × List (String × ℚ))) (symbol exch : String) : Option ℚ :=
  match lookupA m symbol with
  | none => none
  | some inner => lookupA inner exch

/-- Nested dict assignment `self.prices[symbol][exchange_id] = price`
after `if symbol not in self.prices: self.prices[symbol] = {}`. -/
def update2 (m : List (String × List (String × ℚ))) (symbol exch : String) (v : ℚ) :
    List (String × List (String × ℚ)) :=
  match lookupA m symbol with
  | none => updateA m symbol (updateA [] exch v)
  | some inner => updateA m symbol (updateA inner exch v)

/-- The result of one `await exchange.watch_ticker(...)` in
`_watch_ticker_loop`: a ticker whose `'last'` field may be `None`, a
transient network-type failure (`ccxt.NetworkError`/`RequestTimeout`/
`ExchangeNotAvailable`), or any other exception. -/
inductive TickResult
  | tick (last : Option ℚ) (now : ℚ)
  | netError
  | otherError

/-- One iteration of the `while self._is_running` loop in
`WebSocketManager._watch_ticker_loop` (websocket_manager.py lines 90-111):
on a tick, cache `ticker['last']` when it is not `None` and reset the
retry delay to 1; on either exception branch, sleep the current
`retry_delay` and then set it to `min(retry_delay * 2, 8)`.  Returns the
new cache state, the new delay, and the sleep performed (if any). -/
def watch_ticker_step (st : WSState) (symbol exchange_id : String) (retry_delay : ℚ) :
    TickResult → WSState × ℚ × Option ℚ
  | TickResult.tick last now =>
      match last with
      | some price =>
          ({ prices := update2 st.prices symbol exchange_id price,
             lastUpdate := update2 st.lastUpdate symbol exchange_id now }, 1, none)
      | none => (st, 1, none)
  | TickResult.netError => (st, min (retry_delay * 2) 8, some retry_delay)
  | TickResult.otherError => (st, min (retry_delay * 2) 8, some retry_delay)

/-- Run of `_watch_ticker_loop` over a sequence of iteration outcomes,
starting from `retry_delay = 1` only at the top-level entry; collects
every back-off sleep performed, in order. -/
def watch_ticker_run (st : WSState) (symbol exchange_id : String) (retry_delay : ℚ) :
    List TickResult → WSState × ℚ × List ℚ
  | [] => (st, retry_delay, [])
  | r :: rest =>
      let (st1, d1, slept) := watch_ticker_step st symbol exchange_id retry_delay r
      let (st2, d2, sleeps) := watch_ticker_run st1 symbol exchange_id d1 rest
      (st2, d2, (match slept with | none => [] | some s => [s]) ++ sleeps)

/-- The cache read performed by each poll of `WebSocketManager.get_price`
(websocket_manager.py line 126): `self.prices.get(symbol, {}).get(exchange)`.
The surrounding loop returns this value as soon as it `is not None`; no
age or freshness information is consulted (the cache stores none). -/
def get_price_poll (st : WSState) (symbol exch : String) : Option ℚ :=
  lookup2 st.prices symbol exch

/-- Age of the cached quote for `(symbol, exch)` at instant `now`,
computed from the ghost write-time history. -/
def quote_age (st : WSState) (symbol exch : String) (now : ℚ) : Option ℚ :=
  match lookup2 st.lastUpdate symbol exch with
  | none => none
  | some t => some (now - t)

/-- Modelled from the spec: the quote freshness window (default 3 s) that
§3 requires of every quote the OpportunityFilter uses.  No such window
appears anywhere in the source. -/
def freshnessWindow : ℚ := 3

/-! ## ArbitrageBot.handle_signal (advanced_test_bot.py lines 90-95) -/

/-- The spread gate of `ArbitrageBot.handle_signal`: the signal reaches
the `open_arbitrage` call iff neither early `return` fires
(`spread < MIN_SPREAD`, or `SPREAD_SANITY_CHECK and spread > MAX_ALLOWED_SPREAD`). -/
def handle_signal_admits (spread : ℚ) : Bool :=
  if spread < MIN_SPREAD then false
  else if SPREAD_SANITY_CHECK = true ∧ spread > MAX_ALLOWED_SPREAD then false
  else true

/-! ## TelegramMonitor._parse_message (arbitrage_bot/telegram_monitor.py lines 20-63)

The parser works on `text = message.upper().replace(' ', '')` and applies
`re.search` with the patterns `#([A-Z0-9]+)`, `SPREAD[:]*([\d\.]+)%`,
`\(COPY:([A-Z0_9]+)\)`, `SHORT([A-Z]+)[:]*\$([\d\.]+)` and
`LONG([A-Z]+)[:]*\$([\d\.]+)`.  Each pattern's character classes are
pairwise disjoint from the literal that follows them, so greedy matching
without backtracking coincides with Python's regex semantics, and
`re.search` semantics is: try a match anchored at each position, left to
right.  `str.upper` is modelled on ASCII text. -/

/-- Membership in `[A-Z0-9]`. -/
def isUpperAlnum (c : Char) : Bool :=
  decide (('A' ≤ c ∧ c ≤ 'Z') ∨ ('0' ≤ c ∧ c ≤ '9'))

/-- Membership in `[A-Z]`. -/
def isUpperAZ (c : Char) : Bool := decide ('A' ≤ c ∧ c ≤ 'Z')

/-- Membership in `[\d\.]`. -/
def isDigitDot (c : Char) : Bool := decide (('0' ≤ c ∧ c ≤ '9') ∨ c = '.')

/-- Membership in `[A-Z0_9]` (the letters A-Z and the three characters
`0`, `_`, `9`, exactly as the class in the COPY pattern reads). -/
def isCopyChar (c : Char) : Bool :=
  decide (('A' ≤ c ∧ c ≤ 'Z') ∨ c = '0' ∨ c = '_' ∨ c = '9')

/-- Strip a literal from the front of the input, or fail. -/
def stripPre : List Char → List Char → Option (List Char)
  | [], l => some l
  | _ :: _, [] => none
  | p :: ps, c :: cs => if c = p then stripPre ps cs else none

/-- `re.search`: try the anchored matcher at every position, left to
right, including the empty suffix. -/
def searchFirst {α : Type} (m : List Char → Option α) : List Char → Option α
  | [] => m []
  | c :: t =>
    match m (c :: t) with
    | some r => some r
    | none => searchFirst m t

/-- Anchored match of `#([A-Z0-9]+)`; yields the group. -/
def matchHashAt : List Char → Option (List Char)
  | '#' :: rest =>
      let run := rest.takeWhile isUpperAlnum
      if run = [] then none else some run
  | _ => none

/-- Anchored match of `SPREAD[:]*([\d\.]+)%`; yields the number group. -/
def matchSpreadAt (l : List Char) : Option (List Char) :=
  match stripPre "SPREAD".data l with
  | none => none
  | some r1 =>
    let r2 := r1.dropWhile (fun c => c = ':')
    let num := r2.takeWhile isDigitDot
    if num = [] then none
    else
      match r2.dropWhile isDigitDot with
      | '%' :: _ => some num
      | _ => none

/-- Anchored match of `\(COPY:([A-Z0_9]+)\)`; yields the group. -/
def matchCopyAt (l : List Char) : Option (List Char) :=
  match stripPre "(COPY:".data l with
  | none => none
  | some r1 =>
    let run := r1.takeWhile isCopyChar
    if run = [] then none
    else
      match r1.dropWhile isCopyChar with
      | ')' :: _ => some run
      | _ => none

/-- Anchored match of `KW([A-Z]+)[:]*\$([\d\.]+)` for a literal keyword
`KW` (`SHORT` or `LONG`); yields the venue-name and number groups. -/
def matchVenuePriceAt (kw : List Char) (l : List Char) : Option (List Char × List Char) :=
  match stripPre kw l with
  | none => none
  | some r1 =>
    let name := r1.takeWhile isUpperAZ
    if name = [] then none
    else
      match (r1.dropWhile isUpperAZ).dropWhile (fun c => c = ':') with
      | '$' :: r3 =>
          let num := r3.takeWhile isDigitDot
          if num = [] then none else some (name, num)
      | _ => none

/-- Value of a digit string. -/
def natOfDigits (l : List Char) : Nat :=
  l.foldl (fun n c => n * 10 + (c.toNat - 48)) 0

/-- Python `float()` on a regex group drawn from `[\d\.]+`: accepted iff
it has at most one dot and at least one digit (a `ValueError` is `none`,
which makes the parser return `None`). -/
def pyFloat (l : List Char) : Option ℚ :=
  let dots := (l.filter (fun c => c = '.')).length
  if l = [] then none
  else if dots = 0 then some (natOfDigits l)
  else if dots = 1 then
    let intPart := l.takeWhile (fun c => c ≠ '.')
    let fracPart := (l.dropWhile (fun c => c ≠ '.')).tail
    if intPart = [] ∧ fracPart = [] then none
    else some ((natOfDigits intPart : ℚ) + (natOfDigits fracPart : ℚ) / ((10 : ℚ) ^ fracPart.length))
  else none

/-- Python `str.replace(pat, '')`: delete every occurrence of `pat`,
scanning left to right, continuing after each deletion.  Structural
recursion on a fuel that starts at the input length (each step consumes at
least one character, so the fuel never runs out before the input does). -/
def erasePatGo (pat : List Char) : Nat → List Char → List Char
  | 0, l => l
  | _, [] => []
  | fuel + 1, c :: t =>
    if pat.isPrefixOf (c :: t) = true then erasePatGo pat fuel (t.drop (pat.length - 1))
    else c :: erasePatGo pat fuel t

/-- Python `str.replace(pat, '')`. -/
def erasePat (pat : List Char) (l : List Char) : List Char :=
  erasePatGo pat l.length l

/-- Substring test (used only to state which messages contain a word). -/
def hasSubstr (pat : List Char) : List Char → Bool
  | [] => pat.isPrefixOf []
  | c :: t => pat.isPrefixOf (c :: t) || hasSubstr pat t

/-- `TelegramMonitor._parse_message`: returns
`(normalized symbol, spread, {venue: price})` or `none`.  The prices dict
is built by inserting the long venue then the short venue (lowercased
names); when the two names coincide the second insert overwrites the
first and the `len(prices) != 2` check rejects the message. -/
def parse_message (message : String) : Option (String × ℚ × List (String × ℚ)) :=
  let text := (message.data.map Char.toUpper).filter (fun c => c ≠ ' ')
  match searchFirst matchHashAt text with
  | none => none
  | some hashSym =>
    match searchFirst matchSpreadAt text with
    | none => none
    | some spreadStr =>
      match pyFloat spreadStr with
      | none => none
      | some spread =>
        let raw_symbol :=
          match searchFirst matchCopyAt text with
          | some copySym => copySym
          | none => hashSym
        let symbol := String.mk (erasePat "USDT".data (erasePat "_USDT".data raw_symbol)) ++ "-USDT"
        match searchFirst (matchVenuePriceAt "SHORT".data) text,
              searchFirst (matchVenuePriceAt "LONG".data) text with
        | some (shortName, shortNum), some (longName, longNum) =>
          match pyFloat longNum, pyFloat shortNum with
          | some longPx, some shortPx =>
            let longKey := String.mk (longName.map Char.toLower)
            let shortKey := String.mk (shortName.map Char.toLower)
            let prices :=
              if longKey = shortKey then [(longKey, shortPx)]
              else [(longKey, longPx), (shortKey, shortPx)]
            if prices.length ≠ 2 then none else some (symbol, spread, prices)
          | _, _ => none
        | _, _ => none

/-- The `handler` in `TelegramMonitor.start` schedules the trade callback
exactly when `_parse_message` returns a result. -/
def callback_invoked (message : String) : Bool :=
  (parse_message message).isSome

/-! ## Spec-side formulas (for refinement comparison only) -/

/-- Modelled from the spec (§4.5 Settling): realized net P&L with a
configurable taker-fee rate,
`net = grossLong + grossShort − qty × (entryLong + entryShort + exitLong + exitShort) × takerFee`.
Long-leg entry/exit correspond to `entry_buy_price`/`exit_sell_price` and
short-leg entry/exit to `entry_sell_price`/`exit_buy_price`. -/
def specNet (takerFee qty entryLong entryShort exitLong exitShort : ℚ) : ℚ :=
  (exitLong - entryLong) * qty + (entryShort - exitShort) * qty
    - qty * (entryLong + entryShort + exitLong + exitShort) * takerFee

/-- Modelled from the spec (§4.5 Open): the monitoring-loop spread,
`currentSpread = (shortPx − longPx) / longPx × 100`; the long venue is the
low exchange and the short venue the high exchange. -/
def specCurrentSpread (longPx shortPx : ℚ) : ℚ :=
  (shortPx - longPx) / longPx * 100

/-! ## Helper lemmas -/

/-- Dict assignment grows the map by at most one entry. -/
theorem updateA_length_le {α : Type} (l : List (String × α)) (k : String) (v : α) :
    (updateA l k v).length ≤ l.length + 1 := by
  induction l with
  | nil => simp [updateA]
  | cons h t ih =>
      simp only [updateA]
      split
      · simp
      · simp only [List.length_cons]
        omega

/-- Reading back a freshly assigned key. -/
theorem lookupA_updateA_self {α : Type} (l : List (String × α)) (k : String) (v : α) :
    lookupA (updateA l k v) k = some v := by
  induction l with
  | nil => simp [updateA, lookupA]
  | cons h t ih =>
      simp only [updateA]
      split
      · simp [lookupA]
      · simp only [lookupA]
        rw [if_neg (by assumption)]
        exact ih

/-- The name `trade_id` is unbound in `_calculate_and_record_pnl`, so
evaluating it raises `NameError`. -/
theorem readLocal_trade_id :
    readLocal pnl_method_locals "trade_id" = Except.error (PyErr.nameError "trade_id") := by
  rfl

/-- An example open trade used for concrete evaluations: bought at 1.00 on
the low venue, sold at 1.05 on the high venue, quantity 2, entered at
time 0 with entry spread 5 %. -/
def exampleTrade : Trade :=
  { symbol := "FOO-USDT", entry_spread := 5, low_exchange := "gate",
    high_exchange := "mexc", entry_buy_price := 1, entry_sell_price := 21/20,
    quantity := 2, status := "open", entry_time := 0, max_spread_seen := 5,
    net_pnl := none }

/-! ## Claims -/

/-- Claim C1, counterexample.  On the worked example of the spec
(qty = 2, entryLong = 1.00, entryShort = 1.05, exitLong = 1.04,
exitShort = 1.042) the net P&L the code records is not the spec formula
evaluated at the configured `CommissionRate = 0.0006`: the code uses a
hard-coded `0.0007`. -/
theorem C1_counterexample :
    trade_net_pnl exampleTrade (26/25) (521/500)
      ≠ specNet (6/10000) 2 1 (21/20) (26/25) (521/500) := by
  norm_num [trade_net_pnl, specNet, exampleTrade]

/-- Claim C1, amended: for every closed trade the recorded net P&L equals
`grossLong + grossShort − fees` with
`fees = qty × (entryLong + entryShort + exitLong + exitShort) × takerFee`,
where `takerFee` is the hard-coded flat rate `0.0007` (not a configured
per-venue commission rate); `_calculate_and_record_pnl` adds exactly this
amount to the daily ledger. -/
theorem C1_net_pnl_formula (st : OMState) (tid : String) (trade : Trade)
    (exit_sell_price exit_buy_price : ℚ) :
    trade_net_pnl trade exit_sell_price exit_buy_price
        = specNet (7/10000) trade.quantity trade.entry_buy_price trade.entry_sell_price
            exit_sell_price exit_buy_price
      ∧ (calculate_and_record_pnl st tid trade exit_sell_price exit_buy_price).1.daily_pnl
        = st.daily_pnl + trade_net_pnl trade exit_sell_price exit_buy_price := by
  constructor
  · unfold trade_net_pnl specNet
    ring
  · simp [calculate_and_record_pnl, readLocal_trade_id]

/-- Claim C2: at the failing input (long venue price 1.00, short venue
price 1.05, CloseSpread 0.5, five seconds after entry) the monitor closes
the trade with reason `spread_collapse`, although the spec's current
spread is 5 % and its TargetSpread predicate `currentSpread ≤ CloseSpread`
is false: the code computes `(lowPx − highPx) / highPx × 100` instead of
`(shortPx − longPx) / longPx × 100` and compares with `<`. -/
theorem C2_monitor_closes_at_wide_spread :
    monitor_trade_tick exampleTrade (some 1) (some (21/20)) 5 = some "spread_collapse"
      ∧ specCurrentSpread 1 (21/20) = 5
      ∧ ¬ specCurrentSpread 1 (21/20) ≤ CLOSE_SPREAD := by
  refine ⟨?_, ?_, ?_⟩
  · norm_num [monitor_trade_tick, exampleTrade, truthyQ, CLOSE_SPREAD, MAX_HOLD_TIME,
      TRAILING_STOP_ENABLED]
  · norm_num [specCurrentSpread]
  · norm_num [specCurrentSpread, CLOSE_SPREAD]

/-- Claim C3: when the two entry limit orders are submitted (all admission
guards passed) and exactly one succeeds, `open_arbitrage` leaves the
manager state unchanged (no `ActiveTrade` registered, daily P&L ledger
untouched), emits a cancellation for the surviving order, and spawns no
monitor task — in both the buy-only and the sell-only case. -/
theorem C3_single_fill_aborts (st : OMState) (symbol : String) (spread : ℚ)
    (low_exch high_exch : String) (low_price high_price : ℚ)
    (lm hm : Market) (bo so : Order) (now : Int) (utcNow : ℚ)
    (hbl : symbol ∉ SYMBOL_BLACKLIST)
    (hcap : st.active_trades.length < MAX_CONCURRENT_TRADES)
    (hloss : -MAX_DAILY_LOSS < st.daily_pnl)
    (hnot : max (orZero lm.minCost) (orZero hm.minCost) ≤ MAX_MIN_NOTIONAL_USD) :
    ((open_arbitrage st symbol spread low_exch high_exch low_price high_price
        (some lm) (some hm) (some bo) none now utcNow).1 = st
      ∧ Action.cancelOrder low_exch bo.id symbol
          ∈ (open_arbitrage st symbol spread low_exch high_exch low_price high_price
              (some lm) (some hm) (some bo) none now utcNow).2
      ∧ ∀ tid, Action.spawnMonitor tid
          ∉ (open_arbitrage st symbol spread low_exch high_exch low_price high_price
              (some lm) (some hm) (some bo) none now utcNow).2)
    ∧ ((open_arbitrage st symbol spread low_exch high_exch low_price high_price
        (some lm) (some hm) none (some so) now utcNow).1 = st
      ∧ Action.cancelOrder high_exch so.id symbol
          ∈ (open_arbitrage st symbol spread low_exch high_exch low_price high_price
              (some lm) (some hm) none (some so) now utcNow).2
      ∧ ∀ tid, Action.spawnMonitor tid
          ∉ (open_arbitrage st symbol spread low_exch high_exch low_price high_price
              (some lm) (some hm) none (some so) now utcNow).2) := by
  have hguard : ¬ (symbol ∈ SYMBOL_BLACKLIST
      ∨ st.active_trades.length ≥ MAX_CONCURRENT_TRADES
      ∨ st.daily_pnl ≤ -MAX_DAILY_LOSS) := by
    push_neg
    exact ⟨hbl, Nat.lt_iff_add_one_le.mp hcap, hloss⟩
  have hn : ¬ max (orZero lm.minCost) (orZero hm.minCost) > MAX_MIN_NOTIONAL_USD :=
    not_lt.mpr hnot
  unfold open_arbitrage
  simp only [if_neg hguard, if_neg hn]
  refine ⟨⟨?_, ?_, ?_⟩, ?_, ?_, ?_⟩ <;> simp

/-- An example market with `limits.cost.min = 1` and
`limits.amount.min = 2` on both venues. -/
def mktEx : Market := { minCost := some 1, minAmount := some 2 }

/-- Claim C3, witness: concrete one-legged opens (buy filled / sell
filled) from an empty registry. -/
theorem C3_single_fill_aborts_witness :
    ((open_arbitrage { active_trades := [], daily_pnl := 0 } "FOO-USDT" 5 "gate" "mexc"
        1 (21/20) (some mktEx) (some mktEx) (some { id := "b1", price := 1 }) none 7 0).1
      = { active_trades := [], daily_pnl := 0 }
      ∧ Action.cancelOrder "gate" "b1" "FOO-USDT"
          ∈ (open_arbitrage { active_trades := [], daily_pnl := 0 } "FOO-USDT" 5 "gate" "mexc"
              1 (21/20) (some mktEx) (some mktEx) (some { id := "b1", price := 1 }) none 7 0).2
      ∧ ∀ tid, Action.spawnMonitor tid
          ∉ (open_arbitrage { active_trades := [], daily_pnl := 0 } "FOO-USDT" 5 "gate" "mexc"
              1 (21/20) (some mktEx) (some mktEx) (some { id := "b1", price := 1 }) none 7 0).2)
    ∧ ((open_arbitrage { active_trades := [], daily_pnl := 0 } "FOO-USDT" 5 "gate" "mexc"
        1 (21/20) (some mktEx) (some mktEx) none (some { id := "s1", price := 21/20 }) 7 0).1
      = { active_trades := [], daily_pnl := 0 }
      ∧ Action.cancelOrder "mexc" "s1" "FOO-USDT"
          ∈ (open_arbitrage { active_trades := [], daily_pnl := 0 } "FOO-USDT" 5 "gate" "mexc"
              1 (21/20) (some mktEx) (some mktEx) none (some { id := "s1", price := 21/20 }) 7 0).2
      ∧ ∀ tid, Action.spawnMonitor tid
          ∉ (open_arbitrage { active_trades := [], daily_pnl := 0 } "FOO-USDT" 5 "gate" "mexc"
              1 (21/20) (some mktEx) (some mktEx) none (some { id := "s1", price := 21/20 }) 7 0).2) :=
  C3_single_fill_aborts { active_trades := [], daily_pnl := 0 } "FOO-USDT" 5 "gate" "mexc" 1 (21/20)
    mktEx mktEx { id := "b1", price := 1 } { id := "s1", price := 21/20 } 7 0
    (by decide) (by decide) (by norm_num [MAX_DAILY_LOSS])
    (by norm_num [mktEx, orZero, MAX_MIN_NOTIONAL_USD])

/-- Running a single signal task to completion under one unfolding of the
scheduler: the task at index 0 is resumed with the step function. -/
theorem run_tasks_single (st : OMState) (s : SigInput) (ph : TaskPhase) (sch : List Nat) :
    run_tasks st [{ sig := s, phase := ph }] (0 :: sch)
      = run_tasks (open_arbitrage_task_step st s ph).1
          [{ sig := s, phase := (open_arbitrage_task_step st s ph).2 }] sch := rfl

/-- Resuming a finished task changes nothing. -/
theorem step_finished (st : OMState) (s : SigInput) :
    open_arbitrage_task_step st s TaskPhase.finished = (st, TaskPhase.finished) := rfl

/-- The phased task model refines the atomic embedding: a signal task run
to completion with no other task interleaved produces exactly the state
of the atomic `open_arbitrage`. -/
theorem open_arbitrage_task_run_eq (st : OMState) (s : SigInput) :
    (run_tasks st [{ sig := s, phase := TaskPhase.atStart }] [0, 0, 0]).1
      = (open_arbitrage st s.symbol s.spread s.low_exch s.high_exch s.low_price s.high_price
          s.lowMkt s.highMkt s.buyRes s.sellRes s.now s.utcNow).1 := by
  rw [run_tasks_single, run_tasks_single, run_tasks_single]
  by_cases hg : s.symbol ∈ SYMBOL_BLACKLIST ∨ st.active_trades.length ≥ MAX_CONCURRENT_TRADES
      ∨ st.daily_pnl ≤ -MAX_DAILY_LOSS
  · have h1 : open_arbitrage_task_step st s TaskPhase.atStart = (st, TaskPhase.finished) := by
      simp only [open_arbitrage_task_step]
      rw [if_pos hg]
    simp only [h1, step_finished]
    unfold open_arbitrage
    rw [if_pos hg]
    rfl
  · have h1 : open_arbitrage_task_step st s TaskPhase.atStart = (st, TaskPhase.awaitingMarkets) := by
      simp only [open_arbitrage_task_step]
      rw [if_neg hg]
    simp only [h1]
    unfold open_arbitrage
    rw [if_neg hg]
    rcases hL : s.lowMkt with _ | lm
    · have h2 : open_arbitrage_task_step st s TaskPhase.awaitingMarkets
          = (st, TaskPhase.finished) := by
        simp only [open_arbitrage_task_step, hL]
      simp only [h2, step_finished, hL]
      rfl
    · rcases hH : s.highMkt with _ | hm
      · have h2 : open_arbitrage_task_step st s TaskPhase.awaitingMarkets
            = (st, TaskPhase.finished) := by
          simp only [open_arbitrage_task_step, hL, hH]
        simp only [h2, step_finished, hL, hH]
        rfl
      · by_cases hn : max (orZero lm.minCost) (orZero hm.minCost) > MAX_MIN_NOTIONAL_USD
        · have h2 : open_arbitrage_task_step st s TaskPhase.awaitingMarkets
              = (st, TaskPhase.finished) := by
            simp only [open_arbitrage_task_step, hL, hH]
            rw [if_pos hn]
          simp only [h2, step_finished, hL, hH]
          rw [if_pos hn]
          rfl
        · simp only [open_arbitrage_task_step, hL, hH]
          rw [if_neg hn, if_neg hn]
          rcases hB : s.buyRes with _ | bo <;> rcases hS : s.sellRes with _ | so <;>
            simp only [hB, hS] <;> rw [if_neg hn] <;> rfl

/-- A fully specified admissible signal for FOO-USDT with both legs
filling. -/
def sigFOO : SigInput :=
  { symbol := "FOO-USDT", spread := 5, low_exch := "gate", high_exch := "mexc",
    low_price := 1, high_price := 21/20,
    lowMkt := some mktEx, highMkt := some mktEx,
    buyRes := some { id := "b1", price := 1 },
    sellRes := some { id := "s1", price := 21/20 }, now := 7, utcNow := 0 }

/-- A second admissible signal, for BAR-USDT, also with both legs
filling. -/
def sigBAR : SigInput :=
  { symbol := "BAR-USDT", spread := 5, low_exch := "gate", high_exch := "mexc",
    low_price := 1, high_price := 21/20,
    lowMkt := some mktEx, highMkt := some mktEx,
    buyRes := some { id := "b2", price := 1 },
    sellRes := some { id := "s2", price := 21/20 }, now := 8, utcNow := 0 }

/-- A manager state whose registry holds `MAX_CONCURRENT_TRADES − 1`
trades. -/
def stTwo : OMState :=
  { active_trades := [("A-1", exampleTrade), ("B-2", exampleTrade)], daily_pnl := 0 }

/-- The two signal tasks of the race, both just spawned. -/
def tasks0 : List SigTask :=
  [{ sig := sigFOO, phase := TaskPhase.atStart }, { sig := sigBAR, phase := TaskPhase.atStart }]

/-- Claim C4: with the registry one below the cap, two concurrently
handled signals whose tasks are interleaved at the `await` points — both
run the admission guard (each sees 2 < 3), both await market details,
both await order placement, then both register — leave the registry with
4 = MaxConcurrentTrades + 1 entries: the check-then-register race lets a
sequence of signals push the registry above the cap, against the claimed
invariant. -/
theorem C4_concurrent_race_exceeds_cap :
    stTwo.active_trades.length < MAX_CONCURRENT_TRADES
      ∧ (run_tasks stTwo tasks0 [0, 1, 0, 1, 0, 1]).1.active_trades.length
        = MAX_CONCURRENT_TRADES + 1
      ∧ (run_tasks stTwo tasks0 [0, 1, 0, 1, 0, 1]).1.active_trades.map (fun kv => kv.1)
        = ["A-1", "B-2", "FOO-7", "BAR-8"] :=
  ⟨by decide, by rfl, by rfl⟩

/-- Claim C5, counterexample.  A quote written at time 0 is still returned
by the `get_price` cache read at time 100, 97 seconds past the 3-second
freshness window: an old quote is not treated as missing and does not
cause rejection. -/
theorem C5_counterexample :
    get_price_poll (watch_ticker_step WSState.initial "BTC-USDT" "bybit" 1
        (TickResult.tick (some 10) 0)).1 "BTC-USDT" "bybit" = some 10
      ∧ quote_age (watch_ticker_step WSState.initial "BTC-USDT" "bybit" 1
          (TickResult.tick (some 10) 0)).1 "BTC-USDT" "bybit" 100 = some 100
      ∧ freshnessWindow < 100 := by
  refine ⟨by rfl, ?_, by norm_num [freshnessWindow]⟩
  show some ((100 : ℚ) - 0) = some 100
  norm_num

/-- Claim C5, amended: the price cache stores no timestamps and the
`get_price` poll applies no freshness check — whatever price is cached is
returned regardless of its age, even when that age exceeds the freshness
window; only a (symbol, venue) with no cached price at all yields `None`
after the poll timeout. -/
theorem C5_stale_quote_served (st : WSState) (symbol exch : String) (p t now : ℚ)
    (hp : lookup2 st.prices symbol exch = some p)
    (ht : lookup2 st.lastUpdate symbol exch = some t)
    (hstale : freshnessWindow < now - t) :
    get_price_poll st symbol exch = some p
      ∧ quote_age st symbol exch now = some (now - t)
      ∧ freshnessWindow < now - t := by
  refine ⟨hp, ?_, hstale⟩
  unfold quote_age
  rw [ht]

/-- Claim C5, witness: a quote cached at time 0 and read at time 200. -/
theorem C5_stale_quote_served_witness :
    get_price_poll (watch_ticker_step WSState.initial "BTC-USDT" "bybit" 1
        (TickResult.tick (some 10) 0)).1 "BTC-USDT" "bybit" = some 10
      ∧ quote_age (watch_ticker_step WSState.initial "BTC-USDT" "bybit" 1
          (TickResult.tick (some 10) 0)).1 "BTC-USDT" "bybit" 200 = some (200 - 0)
      ∧ freshnessWindow < 200 - 0 :=
  C5_stale_quote_served _ "BTC-USDT" "bybit" 10 0 200 (by rfl) (by rfl)
    (by norm_num [freshnessWindow])

/-- Claim C6, counterexample.  On a tick where both the timeout condition
(elapsed 7000 s > MaxHoldTime 6000 s) and the target-spread condition
(the code's current spread is below CloseSpread) hold, the monitor
records reason `timeout`, not the target-spread reason
`spread_collapse`. -/
theorem C6_counterexample :
    monitor_trade_tick exampleTrade (some 1) (some (21/20)) 7000 = some "timeout"
      ∧ ((1 : ℚ) - 21/20) / (21/20) * 100 < CLOSE_SPREAD
      ∧ (7000 : ℚ) - exampleTrade.entry_time > MAX_HOLD_TIME
      ∧ some "timeout" ≠ some "spread_collapse" := by
  refine ⟨?_, ?_, ?_, ?_⟩
  · norm_num [monitor_trade_tick, exampleTrade, truthyQ, MAX_HOLD_TIME]
  · norm_num [CLOSE_SPREAD]
  · norm_num [exampleTrade, MAX_HOLD_TIME]
  · decide

/-- Claim C6, amended: the monitoring loop evaluates the timeout predicate
first, then the spread condition, then the trailing stop (first match
wins; there is no liquidation-asymmetry predicate in this loop), so on
any tick with usable prices whose elapsed time exceeds MaxHoldTime —
including ticks on which the spread condition holds as well — the
recorded close reason is `timeout`. -/
theorem C6_timeout_evaluated_first (trade : Trade) (lp hp utcNow : ℚ)
    (hlp : lp ≠ 0) (hhp : hp ≠ 0)
    (hdur : utcNow - trade.entry_time > MAX_HOLD_TIME) :
    monitor_trade_tick trade (some lp) (some hp) utcNow = some "timeout" := by
  unfold monitor_trade_tick
  rw [if_neg (by simp [truthyQ, hlp, hhp])]
  simp only [if_pos hdur]

/-- Claim C6, witness: the trade of `C6_counterexample`, 7000 seconds
after entry. -/
theorem C6_timeout_evaluated_first_witness :
    monitor_trade_tick exampleTrade (some 1) (some (21/20)) 7000 = some "timeout" :=
  C6_timeout_evaluated_first exampleTrade 1 (21/20) 7000 (by norm_num) (by norm_num)
    (by norm_num [exampleTrade, MAX_HOLD_TIME])

/-- Claim C7: a parsed signal reaches the `open_arbitrage` call exactly
when its reported spread lies in `[MIN_SPREAD, MAX_ALLOWED_SPREAD]`
(`SPREAD_SANITY_CHECK` is on); in particular spread = MinSpread is
admitted, below MinSpread is rejected, above MaxAllowedSpread is
rejected. -/
theorem C7_spread_gate (spread : ℚ) :
    handle_signal_admits spread = true ↔ MIN_SPREAD ≤ spread ∧ spread ≤ MAX_ALLOWED_SPREAD := by
  unfold handle_signal_admits
  split_ifs with h1 h2 <;> simp_all [SPREAD_SANITY_CHECK]

/-- Every back-off sleep performed by a watch-ticker run whose incoming
delay is at most 8 seconds is itself at most 8 seconds. -/
theorem watch_run_sleeps_le (symbol exch : String) (evs : List TickResult) :
    ∀ (st : WSState) (d : ℚ), d ≤ 8 →
      ((watch_ticker_run st symbol exch d evs).2.2).all (fun s => decide (s ≤ 8)) = true := by
  induction evs with
  | nil => intro st d hd; simp [watch_ticker_run]
  | cons r rest ih =>
      intro st d hd
      cases r with
      | tick last now =>
          cases last with
          | none =>
              simp only [watch_ticker_run, watch_ticker_step]
              exact ih _ 1 (by norm_num)
          | some p =>
              simp only [watch_ticker_run, watch_ticker_step]
              exact ih _ 1 (by norm_num)
      | netError =>
          simp only [watch_ticker_run, watch_ticker_step, List.all_cons, List.singleton_append]
          rw [Bool.and_eq_true]
          exact ⟨by simpa using hd, ih _ (min (d * 2) 8) (min_le_right _ _)⟩
      | otherError =>
          simp only [watch_ticker_run, watch_ticker_step, List.all_cons, List.singleton_append]
          rw [Bool.and_eq_true]
          exact ⟨by simpa using hd, ih _ (min (d * 2) 8) (min_le_right _ _)⟩

/-- Claim C8: starting from the initial `retry_delay = 1`, a watch-ticker
loop sleeps the current delay on a failure and then doubles it capped at
8 s, and resets it to 1 on a successful tick, so no back-off sleep it
ever performs exceeds 8 seconds, for any sequence of tick outcomes. -/
theorem C8_backoff_bounded (st : WSState) (symbol exch : String) (evs : List TickResult) :
    ((watch_ticker_run st symbol exch 1 evs).2.2).all (fun s => decide (s ≤ 8)) = true :=
  watch_run_sleeps_le symbol exch evs st 1 (by norm_num)

/-- A well-formed arbitrage signal whose text also contains the word
"aligned". -/
def msgAligned : String := "#BTC aligned Spread: 5.0% Short MEXC: $1.0 Long GATE: $2.0"

/-- A second such message, and an alignment notice without signal
tokens. -/
def msgAligned2 : String := "#FOO aligned Spread: 3.5% Short MEXC: $1.25 Long BINGX: $1.20"

/-- A price-alignment notice with no symbol tag, spread token, or price
lines. -/
def alignNotice : String := "prices aligned in 5 minutes"

/-- Claim C9, counterexample.  A message containing the word "aligned"
that also carries a symbol tag, a spread token, and both price lines is
parsed by `_parse_message` into a SignalEvent, and the trade callback is
scheduled: the current parser has no "aligned" filter. -/
theorem C9_counterexample :
    hasSubstr "aligned".data msgAligned.data = true
      ∧ parse_message msgAligned
        = some ("BTCALIGNEDSPREAD-USDT", 5, [("gate", 2), ("mexc", 1)])
      ∧ callback_invoked msgAligned = true := by
  refine ⟨by rfl, ?_, by rfl⟩
  have h : parse_message msgAligned
      = some ("BTCALIGNEDSPREAD-USDT", ((5 : ℕ) : ℚ) + ((0 : ℕ) : ℚ) / (10 : ℚ) ^ 1,
          [("gate", ((2 : ℕ) : ℚ) + ((0 : ℕ) : ℚ) / (10 : ℚ) ^ 1),
           ("mexc", ((1 : ℕ) : ℚ) + ((0 : ℕ) : ℚ) / (10 : ℚ) ^ 1)]) := by rfl
  rw [h]
  norm_num

/-- Claim C9, amended: the current signal parser `_parse_message` applies
no "aligned" filter — an inbound message containing the word "aligned"
still produces a SignalEvent whenever it carries a symbol tag, a spread
token, and both price lines, and an alignment notice is dropped only
because it lacks those tokens.  (The "aligned" rejection exists only in
the legacy `parse_symbol_enhanced` of `advanced_test_bot_old.py`.) -/
theorem C9_no_aligned_filter :
    hasSubstr "aligned".data msgAligned2.data = true
      ∧ parse_message msgAligned2
        = some ("FOOALIGNEDSPREAD-USDT", 7/2, [("bingx", 6/5), ("mexc", 5/4)])
      ∧ parse_message alignNotice = none := by
  refine ⟨by rfl, ?_, by rfl⟩
  have h : parse_message msgAligned2
      = some ("FOOALIGNEDSPREAD-USDT", ((3 : ℕ) : ℚ) + ((5 : ℕ) : ℚ) / (10 : ℚ) ^ 1,
          [("bingx", ((1 : ℕ) : ℚ) + ((20 : ℕ) : ℚ) / (10 : ℚ) ^ 2),
           ("mexc", ((1 : ℕ) : ℚ) + ((25 : ℕ) : ℚ) / (10 : ℚ) ^ 2)]) := by rfl
  rw [h]
  norm_num

/-- Claim C10: when both closing orders succeed,
`_calculate_and_record_pnl` adds the net P&L to `daily_pnl` and marks the
trade `closed`, and then raises `NameError` on
`self.active_trades.pop(trade_id, None)` because `trade_id` is unbound in
that scope — so the trade is never removed from `active_trades` and the
exception escapes `close_arbitrage`. -/
theorem C10_pnl_raises_name_error (st : OMState) (tid : String) (trade : Trade)
    (sq bq : ℚ) (so bo : Order)
    (hlook : lookupA st.active_trades tid = some trade)
    (hopen : trade.status = "open") (hsq : sq ≠ 0) (hbq : bq ≠ 0) :
    (close_arbitrage st tid (some sq) (some bq) (some so) (some bo)).2
        = Except.error (PyErr.nameError "trade_id")
      ∧ (close_arbitrage st tid (some sq) (some bq) (some so) (some bo)).1.daily_pnl
        = st.daily_pnl + trade_net_pnl trade so.price bo.price
      ∧ ∃ t2,
          lookupA (close_arbitrage st tid (some sq) (some bq) (some so)
              (some bo)).1.active_trades tid = some t2
          ∧ t2.status = "closed"
          ∧ t2.net_pnl = some (trade_net_pnl trade so.price bo.price) := by
  unfold close_arbitrage
  rw [hlook]
  simp only [hopen]
  rw [if_neg (by simp)]
  rw [if_neg (by simp [truthyQ, hsq, hbq])]
  unfold calculate_and_record_pnl
  rw [readLocal_trade_id]
  refine ⟨rfl, ?_, ?_⟩
  · simp [trade_net_pnl]
  · exact ⟨_, lookupA_updateA_self _ _ _, rfl, by simp [trade_net_pnl]⟩

/-- Claim C10, witness: closing the example trade at exit prices 1.04 and
1.042 records the P&L, leaves the closed trade in the registry, and
surfaces the `NameError`. -/
theorem C10_pnl_raises_name_error_witness :
    (close_arbitrage { active_trades := [("FOO-7", exampleTrade)], daily_pnl := 0 } "FOO-7"
        (some (26/25)) (some (521/500)) (some { id := "cs", price := 26/25 })
        (some { id := "cb", price := 521/500 })).2
        = Except.error (PyErr.nameError "trade_id")
      ∧ (close_arbitrage { active_trades := [("FOO-7", exampleTrade)], daily_pnl := 0 } "FOO-7"
          (some (26/25)) (some (521/500)) (some { id := "cs", price := 26/25 })
          (some { id := "cb", price := 521/500 })).1.daily_pnl
        = (0 : ℚ) + trade_net_pnl exampleTrade (26/25) (521/500)
      ∧ ∃ t2,
          lookupA (close_arbitrage { active_trades := [("FOO-7", exampleTrade)], daily_pnl := 0 }
              "FOO-7" (some (26/25)) (some (521/500)) (some { id := "cs", price := 26/25 })
              (some { id := "cb", price := 521/500 })).1.active_trades "FOO-7"
            = some t2
          ∧ t2.status = "closed"
          ∧ t2.net_pnl = some (trade_net_pnl exampleTrade (26/25) (521/500)) :=
  C10_pnl_raises_name_error { active_trades := [("FOO-7", exampleTrade)], daily_pnl := 0 } "FOO-7"
    exampleTrade (26/25) (521/500) { id := "cs", price := 26/25 } { id := "cb", price := 521/500 }
    (by rfl) (by rfl) (by norm_num) (by norm_num)

end Kukareku
